import Mathlib

/-!
Shallow embedding of the Apleno comment-board backend
(`apy/server (1).js`): string utilities mirroring the JavaScript
operations, the `sanitize` function, the query-parameter parsing of the
list route, the validation pipeline of the create route, the SQL list
query (ORDER BY created_at DESC, id DESC LIMIT ? OFFSET ?), the
fixed-window rate limiter on the create route, and the JSON responses of
the three routes, together with theorems settling the specification
claims.
-/

namespace Apleno

/-- JavaScript `String.prototype.trim`: drop whitespace at both ends. -/
def trimJS (s : String) : String :=
  ⟨((s.data.dropWhile Char.isWhitespace).reverse.dropWhile Char.isWhitespace).reverse⟩

/-- JavaScript `s.slice(0, n)`: the first `n` characters. -/
def jsSlice (s : String) (n : Nat) : String :=
  ⟨s.data.take n⟩

/-- JavaScript `s || d` for strings: `d` when `s` is empty (falsy), else `s`. -/
def jsOr (s d : String) : String :=
  if s = "" then d else s

/-- Value of a digit list read in base 10, as by `parseInt`. -/
def digitsToNat (l : List Char) : Nat :=
  l.foldl (fun a c => a * 10 + (c.toNat - 48)) 0

/-- JavaScript `parseInt(s, 10)`: skip leading whitespace, optional sign,
read leading decimal digits; `none` models the `NaN` result. -/
def parseIntJS (s : String) : Option Int :=
  let l := s.data.dropWhile Char.isWhitespace
  let p : Int × List Char :=
    match l with
    | '-' :: r => (-1, r)
    | '+' :: r => (1, r)
    | _ => (1, l)
  let ds := p.2.takeWhile Char.isDigit
  if ds = [] then none else some (p.1 * (digitsToNat ds : Int))

/-- One global single-character replacement, as JavaScript
`replace(/t/g, r)`: each occurrence of `t` becomes `r`, other characters
are kept; the inserted text is not rescanned. -/
def replCh (t : Char) (r : List Char) : List Char → List Char
  | [] => []
  | c :: cs => (if c = t then r else [c]) ++ replCh t r cs

/-- The five chained replacements of the server's `sanitize`, in source
order: `&`, then `<`, `>`, `"`, `'`. -/
def sanitizeL (l : List Char) : List Char :=
  replCh '\'' "&#39;".data
    (replCh '"' "&quot;".data
      (replCh '>' "&gt;".data
        (replCh '<' "&lt;".data
          (replCh '&' "&amp;".data l))))

/-- The server's `sanitize` on strings. -/
def sanitize (s : String) : String :=
  ⟨sanitizeL s.data⟩

/-- `\S` of the e-mail regular expression: a non-whitespace character. -/
def nonSpace (c : Char) : Bool :=
  !c.isWhitespace

/-- Existence of a split `a ++ "@" ++ b ++ "." ++ c` of `l` with `a`, `b`,
`c` nonempty: an `@` at some index `i ≥ 1` and a `.` at some `j` with
`i + 2 ≤ j` and `j + 2 ≤ l.length`. -/
def emailSplit (l : List Char) : Bool :=
  (List.range l.length).any fun i =>
    (List.range l.length).any fun j =>
      decide (1 ≤ i) && decide (i + 2 ≤ j) && decide (j + 2 ≤ l.length)
        && (l.getD i ' ' == '@') && (l.getD j ' ' == '.')

/-- JavaScript `/^\S+@\S+\.\S+$/.test s`: every character non-whitespace
and a decomposition `\S+@\S+\.\S+` exists. -/
def emailTest (s : String) : Bool :=
  s.data.all nonSpace && emailSplit s.data

/-- A stored row of the `comments` table. -/
structure Row where
  id : Int
  name : String
  email : String
  message : String
  date : String
  created_at : String
deriving DecidableEq

/-- `ORDER BY created_at DESC, id DESC`: `a` sorts no later than `b` when
`a` is strictly newer, or equally new with the larger (or equal) `id`. -/
def rowLE (a b : Row) : Bool :=
  decide (b.created_at < a.created_at)
    || (decide (a.created_at = b.created_at) && decide (b.id ≤ a.id))

/-- The rows as the `SELECT ... ORDER BY created_at DESC, id DESC`
query returns them. -/
def sortRows (rows : List Row) : List Row :=
  rows.mergeSort rowLE

/-- The full list query: sort, then `OFFSET`, then `LIMIT`. -/
def queryRows (rows : List Row) (limit offset : Int) : List Row :=
  ((sortRows rows).drop offset.toNat).take limit.toNat

/-- A JSON value, as the server's responses are built. -/
inductive JVal where
  | s (v : String)
  | n (v : Int)
  | b (v : Bool)
  | arr (items : List JVal)
  | obj (fields : List (String × JVal))

/-- Look a key up in a JSON object (first occurrence). -/
def getField (v : JVal) (k : String) : Option JVal :=
  match v with
  | .obj fs => fs.lookup k
  | _ => none

mutual

/-- The key `k` occurs nowhere, at any depth, in the JSON value. -/
def noKey (k : String) : JVal → Bool
  | .s _ => true
  | .n _ => true
  | .b _ => true
  | .arr items => noKeyArr k items
  | .obj fields => noKeyObj k fields

/-- `noKey` over every element of an array. -/
def noKeyArr (k : String) : List JVal → Bool
  | [] => true
  | v :: vs => noKey k v && noKeyArr k vs

/-- `noKey` over an object's fields: no field named `k`, recursively. -/
def noKeyObj (k : String) : List (String × JVal) → Bool
  | [] => true
  | f :: fs => !(f.1 == k) && noKey k f.2 && noKeyObj k fs

end

/-- The JSON view of a stored row on the list route: `id`, `name` with the
`Anónimo` placeholder for an empty name, sanitized `message`, `date`,
`created_at`; the `email` column is commented out of the `SELECT` and
omitted here. -/
def rowView (r : Row) : JVal :=
  .obj [("id", .n r.id), ("name", .s (jsOr r.name "Anónimo")),
        ("message", .s (sanitize r.message)), ("date", .s r.date),
        ("created_at", .s r.created_at)]

/-- `req.query.limit || '20'` and the like: an absent parameter, or the
empty string (falsy), falls back to the default literal. -/
def jsQueryOr (q : Option String) (d : String) : String :=
  match q with
  | none => d
  | some s => if s = "" then d else s

/-- `Math.max(1, Math.min(parseInt(req.query.limit || '20', 10) || 20, 100))`.
A parse to `NaN` or to `0` (both falsy) falls back to `20`. -/
def effectiveLimit (q : Option String) : Int :=
  let n : Int :=
    match parseIntJS (jsQueryOr q "20") with
    | none => 20
    | some v => if v = 0 then 20 else v
  max 1 (min n 100)

/-- `Math.max(0, parseInt(req.query.offset || '0', 10) || 0)`. -/
def effectiveOffset (q : Option String) : Int :=
  let n : Int :=
    match parseIntJS (jsQueryOr q "0") with
    | none => 0
    | some v => v
  max 0 n

/-- The 200 response of `GET /api/comments`: the queried rows mapped to
views, with the effective `limit` and `offset` echoed back. -/
def listHandler (rows : List Row) (qlimit qoffset : Option String) : Nat × JVal :=
  let limit := effectiveLimit qlimit
  let offset := effectiveOffset qoffset
  (200, .obj [("ok", .b true),
              ("items", .arr ((queryRows rows limit offset).map rowView)),
              ("limit", .n limit), ("offset", .n offset)])

/-- A 400 validation response body. -/
def errJson (e f : String) : JVal :=
  .obj [("ok", .b false), ("error", .s e), ("field", .s f)]

/-- The 500 database-failure response body. -/
def dbErrJson : JVal :=
  .obj [("ok", .b false), ("error", .s "DB_ERROR")]

/-- `(req.body.name || '').toString().trim().slice(0, 100)`. -/
def procName (bname : Option String) : String :=
  jsSlice (trimJS (bname.getD "")) 100

/-- `(req.body.email || '').toString().trim().slice(0, 150)`. -/
def procEmail (bemail : Option String) : String :=
  jsSlice (trimJS (bemail.getD "")) 150

/-- `(req.body.message || '').toString().trim()`. -/
def procMsg (bmsg : Option String) : String :=
  trimJS (bmsg.getD "")

/-- The core of `POST /api/comments` after body parsing and the rate
limiter: trim and truncate the fields, validate in source order
(message minimum, message maximum, e-mail pattern), then insert and
answer 201; returns the response together with the resulting table and
next row id.  `dbFail` models the `db.run` callback receiving an error. -/
def postHandler (bname bemail bmsg : Option String) (rows : List Row)
    (nextId : Int) (dateIso createdTs : String) (dbFail : Bool) :
    (Nat × JVal) × List Row × Int :=
  let name := procName bname
  let email := procEmail bemail
  let message := procMsg bmsg
  if message = "" ∨ message.length < 5 then
    ((400, errJson "VALIDATION_MIN_LENGTH" "message"), rows, nextId)
  else if message.length > 2000 then
    ((400, errJson "VALIDATION_MAX_LENGTH" "message"), rows, nextId)
  else if email ≠ "" ∧ emailTest email = false then
    ((400, errJson "VALIDATION_EMAIL" "email"), rows, nextId)
  else if dbFail then
    ((500, dbErrJson), rows, nextId)
  else
    ((201, .obj [("ok", .b true),
                 ("item", .obj [("id", .n nextId),
                                ("name", .s (jsOr name "Anónimo")),
                                ("message", .s (sanitize message)),
                                ("date", .s dateIso)])]),
     rows ++ [⟨nextId, name, email, message, dateIso, createdTs⟩], nextId + 1)

/-- The parsed fields of a create request's JSON body. -/
structure BodyFields where
  name : Option String
  email : Option String
  message : Option String
deriving DecidableEq

/-- A request to one of the three routes; `create none` is a request whose
JSON body fails to parse (rejected by the body-parsing middleware, which
runs before the route's rate limiter). -/
inductive Req where
  | health
  | list (qlimit qoffset : Option String)
  | create (body : Option BodyFields)
deriving DecidableEq

/-- The server's mutable state: the comments table, the next row id, and
the fixed-window rate-limiter window start (ms) and hit count. -/
structure ServerSt where
  rows : List Row
  nextId : Int
  winStart : Nat
  winCount : Nat
deriving DecidableEq

/-- Modelled from the spec: the fixed-window rate limiter configured as
`rateLimit(windowMs: 60 * 1000, max: 30)` on the create route; the
`express-rate-limit` implementation is not part of this repository.  A
counter is kept per window of 60000 ms; once 60000 ms have passed a new
window begins with this hit as its first; within a window a hit is allowed
while fewer than 30 hits have been counted.  Returns the decision and the
updated window start and count. -/
def rateAllow (winStart winCount now : Nat) : Bool × Nat × Nat :=
  if winStart + 60000 ≤ now then
    (true, now, 1)
  else if winCount < 30 then
    (true, winStart, winCount + 1)
  else
    (false, winStart, winCount)

/-- Modelled from the spec: the 429 response of the rate limiter; the spec
mandates no particular body. -/
def tooManyBody : JVal :=
  .s "Too many requests, please try again later."

/-- Dispatch one request: health and list never touch the limiter; a
malformed create body is answered 400 by the body parser before the
limiter; an allowed create runs `postHandler`.  `dbReady` feeds the health
body, `dbFail` makes the storage calls fail. -/
def handleReq (req : Req) (st : ServerSt) (now : Nat)
    (dateIso createdTs : String) (dbReady dbFail : Bool) :
    (Nat × JVal) × ServerSt :=
  match req with
  | .health =>
      ((200, .obj [("ok", .b true), ("db", .b dbReady),
                   ("message", .s "Apleno API funcionando")]), st)
  | .list ql qo =>
      if dbFail then ((500, dbErrJson), st)
      else (listHandler st.rows ql qo, st)
  | .create none =>
      ((400, .obj [("ok", .b false), ("error", .s "JSON_INVALID_BODY")]), st)
  | .create (some body) =>
      let d := rateAllow st.winStart st.winCount now
      if d.1 then
        let r := postHandler body.name body.email body.message st.rows
                   st.nextId dateIso createdTs dbFail
        (r.1, ⟨r.2.1, r.2.2, d.2.1, d.2.2⟩)
      else
        ((429, tooManyBody), ⟨st.rows, st.nextId, d.2.1, d.2.2⟩)

/-- Feed a list of timed requests through the server, collecting the
responses and the final state. -/
def runReqs (reqs : List (Req × Nat)) (st : ServerSt)
    (dateIso createdTs : String) (dbReady dbFail : Bool) :
    List (Nat × JVal) × ServerSt :=
  match reqs with
  | [] => ([], st)
  | (r, t) :: rest =>
      let step := handleReq r st t dateIso createdTs dbReady dbFail
      let tail := runReqs rest step.2 dateIso createdTs dbReady dbFail
      (step.1 :: tail.1, tail.2)

/-- Look a key up inside the `item` object of a create response. -/
def itemField (v : JVal) (k : String) : Option JVal :=
  match getField v "item" with
  | some it => getField it k
  | none => none

/-- The per-character escape map realized by the five chained
replacements: each of the five characters maps to its entity, every other
character maps to itself. -/
def escapeChar (c : Char) : List Char :=
  if c = '&' then "&amp;".data
  else if c = '<' then "&lt;".data
  else if c = '>' then "&gt;".data
  else if c = '"' then "&quot;".data
  else if c = '\'' then "&#39;".data
  else [c]

theorem replCh_append (t : Char) (r l₁ l₂ : List Char) :
    replCh t r (l₁ ++ l₂) = replCh t r l₁ ++ replCh t r l₂ := by
  induction l₁ with
  | nil => rfl
  | cons c cs ih => simp [replCh, ih]

theorem sanitizeL_append (l₁ l₂ : List Char) :
    sanitizeL (l₁ ++ l₂) = sanitizeL l₁ ++ sanitizeL l₂ := by
  simp [sanitizeL, replCh_append]

theorem sanitizeL_single (c : Char) : sanitizeL [c] = escapeChar c := by
  by_cases h1 : c = '&'
  · subst h1; decide
  by_cases h2 : c = '<'
  · subst h2; decide
  by_cases h3 : c = '>'
  · subst h3; decide
  by_cases h4 : c = '"'
  · subst h4; decide
  by_cases h5 : c = '\''
  · subst h5; decide
  simp [sanitizeL, replCh, escapeChar, h1, h2, h3, h4, h5]

theorem sanitizeL_eq_escape (l : List Char) :
    sanitizeL l = (l.map escapeChar).flatten := by
  induction l with
  | nil => rfl
  | cons c cs ih =>
      have : sanitizeL (c :: cs) = sanitizeL [c] ++ sanitizeL cs := by
        simpa using sanitizeL_append [c] cs
      simp [this, sanitizeL_single, ih]

theorem mem_replCh {x t : Char} {r : List Char} :
    ∀ {l : List Char}, x ∈ replCh t r l → x ∈ r ∨ (x ∈ l ∧ x ≠ t)
  | [], h => by simp [replCh] at h
  | c :: cs, h => by
    by_cases hc : c = t
    · rw [replCh, if_pos hc] at h
      rcases List.mem_append.mp h with h | h
      · exact Or.inl h
      · rcases mem_replCh h with h2 | ⟨h3, h4⟩
        · exact Or.inl h2
        · exact Or.inr ⟨List.mem_cons_of_mem _ h3, h4⟩
    · rw [replCh, if_neg hc] at h
      rcases List.mem_append.mp h with h | h
      · rw [List.mem_singleton] at h
        subst h
        exact Or.inr ⟨List.mem_cons_self _ _, hc⟩
      · rcases mem_replCh h with h2 | ⟨h3, h4⟩
        · exact Or.inl h2
        · exact Or.inr ⟨List.mem_cons_of_mem _ h3, h4⟩

theorem mem_sanitizeL {x : Char} {l : List Char} (h : x ∈ sanitizeL l) :
    x ∈ "&#39;".data ∨ x ∈ "&quot;".data ∨ x ∈ "&gt;".data ∨ x ∈ "&lt;".data
      ∨ x ∈ "&amp;".data
      ∨ (x ∈ l ∧ x ≠ '&' ∧ x ≠ '<' ∧ x ≠ '>' ∧ x ≠ '"' ∧ x ≠ '\'') := by
  rw [sanitizeL] at h
  rcases mem_replCh h with h | ⟨h, hq⟩
  · exact Or.inl h
  rcases mem_replCh h with h | ⟨h, hdq⟩
  · exact Or.inr (Or.inl h)
  rcases mem_replCh h with h | ⟨h, hgt⟩
  · exact Or.inr (Or.inr (Or.inl h))
  rcases mem_replCh h with h | ⟨h, hlt⟩
  · exact Or.inr (Or.inr (Or.inr (Or.inl h)))
  rcases mem_replCh h with h | ⟨h, hamp⟩
  · exact Or.inr (Or.inr (Or.inr (Or.inr (Or.inl h))))
  exact Or.inr (Or.inr (Or.inr (Or.inr (Or.inr ⟨h, hamp, hlt, hgt, hdq, hq⟩))))

theorem sanitize_no_lt (s : String) : '<' ∉ (sanitize s).data := by
  intro h
  rcases mem_sanitizeL h with h | h | h | h | h | ⟨_, _, h2, _, _, _⟩
  · exact absurd h (by decide)
  · exact absurd h (by decide)
  · exact absurd h (by decide)
  · exact absurd h (by decide)
  · exact absurd h (by decide)
  · exact h2 rfl

theorem sanitize_no_gt (s : String) : '>' ∉ (sanitize s).data := by
  intro h
  rcases mem_sanitizeL h with h | h | h | h | h | ⟨_, _, _, h3, _, _⟩
  · exact absurd h (by decide)
  · exact absurd h (by decide)
  · exact absurd h (by decide)
  · exact absurd h (by decide)
  · exact absurd h (by decide)
  · exact h3 rfl

theorem sanitize_no_quot (s : String) : '"' ∉ (sanitize s).data := by
  intro h
  rcases mem_sanitizeL h with h | h | h | h | h | ⟨_, _, _, _, h4, _⟩
  · exact absurd h (by decide)
  · exact absurd h (by decide)
  · exact absurd h (by decide)
  · exact absurd h (by decide)
  · exact absurd h (by decide)
  · exact h4 rfl

theorem sanitize_no_apos (s : String) : '\'' ∉ (sanitize s).data := by
  intro h
  rcases mem_sanitizeL h with h | h | h | h | h | ⟨_, _, _, _, _, h5⟩
  · exact absurd h (by decide)
  · exact absurd h (by decide)
  · exact absurd h (by decide)
  · exact absurd h (by decide)
  · exact absurd h (by decide)
  · exact h5 rfl

theorem rowLE_iff (a b : Row) :
    rowLE a b = true ↔
      b.created_at < a.created_at
        ∨ (a.created_at = b.created_at ∧ b.id ≤ a.id) := by
  simp [rowLE]

theorem rowLE_trans (a b c : Row) (h1 : rowLE a b) (h2 : rowLE b c) :
    rowLE a c := by
  rw [rowLE_iff] at h1 h2 ⊢
  rcases h1 with h1 | ⟨h1e, h1i⟩
  · rcases h2 with h2 | ⟨h2e, h2i⟩
    · exact Or.inl (h2.trans h1)
    · exact Or.inl (lt_of_eq_of_lt h2e.symm h1)
  · rcases h2 with h2 | ⟨h2e, h2i⟩
    · exact Or.inl (lt_of_lt_of_eq h2 h1e.symm)
    · exact Or.inr ⟨h1e.trans h2e, h2i.trans h1i⟩

theorem rowLE_total (a b : Row) : rowLE a b || rowLE b a := by
  rw [Bool.or_eq_true, rowLE_iff, rowLE_iff]
  rcases lt_trichotomy a.created_at b.created_at with h | h | h
  · exact Or.inr (Or.inl h)
  · rcases le_total b.id a.id with hi | hi
    · exact Or.inl (Or.inr ⟨h, hi⟩)
    · exact Or.inr (Or.inr ⟨h.symm, hi⟩)
  · exact Or.inl (Or.inl h)

theorem effectiveLimit_ge_one (q : Option String) : 1 ≤ effectiveLimit q :=
  le_max_left _ _

theorem effectiveLimit_le_100 (q : Option String) : effectiveLimit q ≤ 100 :=
  max_le (by norm_num) (min_le_right _ _)

theorem effectiveOffset_nonneg (q : Option String) : 0 ≤ effectiveOffset q :=
  le_max_left _ _

/-- C5 (counterexample): the claim says a request with `limit=0` yields an
effective limit of 1; the code parses `"0"` to the falsy `0`, falls back
to the default `20`, and clamps that, so the effective limit is 20. -/
theorem limit_zero_yields_default_counterexample :
    effectiveLimit (some "0") = 20 ∧ effectiveLimit (some "0") ≠ 1 := by
  constructor
  · decide
  · decide

/-- C5 (amended): the effective `limit` is the `parseInt` value of the
query string clamped to `[1,100]`, except that an absent parameter, an
empty string, a non-numeric string, and the value `0` (all falsy) yield
the default 20; in particular `limit=0` gives 20 (not 1) and `limit=500`
gives 100. The effective `offset` is the parsed value clamped to
`[0,∞)`, with default 0 for absent, empty or non-numeric input. Both
effective values are echoed in the list response body. -/
theorem limit_offset_clamping_amended :
    (∀ s v, s ≠ "" → parseIntJS s = some v → v ≠ 0 →
       effectiveLimit (some s) = max 1 (min v 100)) ∧
    (∀ s, s ≠ "" → parseIntJS s = none → effectiveLimit (some s) = 20) ∧
    effectiveLimit none = 20 ∧ effectiveLimit (some "") = 20 ∧
    effectiveLimit (some "0") = 20 ∧ effectiveLimit (some "500") = 100 ∧
    (∀ q, 1 ≤ effectiveLimit q ∧ effectiveLimit q ≤ 100) ∧
    (∀ s v, s ≠ "" → parseIntJS s = some v →
       effectiveOffset (some s) = max 0 v) ∧
    (∀ s, s ≠ "" → parseIntJS s = none → effectiveOffset (some s) = 0) ∧
    effectiveOffset none = 0 ∧ (∀ q, 0 ≤ effectiveOffset q) ∧
    (∀ rows ql qo,
       getField (listHandler rows ql qo).2 "limit"
           = some (.n (effectiveLimit ql)) ∧
       getField (listHandler rows ql qo).2 "offset"
           = some (.n (effectiveOffset qo))) := by
  refine ⟨?_, ?_, by decide, by decide, by decide, by decide,
          fun q => ⟨effectiveLimit_ge_one q, effectiveLimit_le_100 q⟩,
          ?_, ?_, by decide, effectiveOffset_nonneg, ?_⟩
  · intro s v hs hp hv
    simp [effectiveLimit, jsQueryOr, hs, hp, hv]
  · intro s hs hp
    simp [effectiveLimit, jsQueryOr, hs, hp]
  · intro s v hs hp
    simp [effectiveOffset, jsQueryOr, hs, hp]
  · intro s hs hp
    simp [effectiveOffset, jsQueryOr, hs, hp]
  · intro rows ql qo
    constructor
    · rfl
    · rfl

/-- C5 (witness): a numeric, nonzero query value goes through the clamp. -/
theorem limit_offset_clamping_witness :
    effectiveLimit (some "7") = max 1 (min 7 100) :=
  limit_offset_clamping_amended.1 "7" 7 (by decide) (by decide) (by decide)

/-- C6: the list query returns at most `limit` rows, equals the sorted
table with the first `offset` rows skipped and the next `limit` kept, is
pairwise ordered newest-first (`created_at` descending, ties by `id`
descending, per `rowLE`), and the sort is a permutation of the stored
table. -/
theorem list_query_ordered_limited (rows : List Row) (ql qo : Option String) :
    ((queryRows rows (effectiveLimit ql) (effectiveOffset qo)).length : Int)
        ≤ effectiveLimit ql ∧
    List.Pairwise (fun a b => rowLE a b = true)
      (queryRows rows (effectiveLimit ql) (effectiveOffset qo)) ∧
    queryRows rows (effectiveLimit ql) (effectiveOffset qo)
      = ((sortRows rows).drop (effectiveOffset qo).toNat).take
          (effectiveLimit ql).toNat ∧
    (sortRows rows).Perm rows := by
  refine ⟨?_, ?_, rfl, List.mergeSort_perm rows rowLE⟩
  · have h1 : (queryRows rows (effectiveLimit ql) (effectiveOffset qo)).length
        ≤ (effectiveLimit ql).toNat := by
      have := List.length_take ((effectiveLimit ql).toNat)
        ((sortRows rows).drop (effectiveOffset qo).toNat)
      simp [queryRows, this]
    have h2 : 1 ≤ effectiveLimit ql := effectiveLimit_ge_one ql
    omega
  · have hs : (sortRows rows).Pairwise (fun a b => rowLE a b = true) :=
      List.sorted_mergeSort rowLE_trans rowLE_total rows
    have hsub : List.Sublist
        (queryRows rows (effectiveLimit ql) (effectiveOffset qo))
        (sortRows rows) :=
      (List.take_sublist _ _).trans (List.drop_sublist _ _)
    exact List.Pairwise.sublist hsub hs

theorem noKey_rowView (r : Row) : noKey "email" (rowView r) = true := by
  simp [rowView, noKey, noKeyObj]

theorem noKeyArr_map_rowView (rs : List Row) :
    noKeyArr "email" (rs.map rowView) = true := by
  induction rs with
  | nil => simp [noKeyArr]
  | cons r rs ih => simp [noKeyArr, noKey_rowView r, ih]

theorem noKey_listHandler (rows : List Row) (ql qo : Option String) :
    noKey "email" (listHandler rows ql qo).2 = true := by
  simp [listHandler, noKey, noKeyObj, noKeyArr_map_rowView]

theorem noKey_postHandler (bn be bm : Option String) (rows : List Row)
    (nid : Int) (dI cT : String) (dbF : Bool) :
    noKey "email" (postHandler bn be bm rows nid dI cT dbF).1.2 = true := by
  simp only [postHandler]
  split
  · simp [errJson, noKey, noKeyObj]
  split
  · simp [errJson, noKey, noKeyObj]
  split
  · simp [errJson, noKey, noKeyObj]
  split
  · simp [dbErrJson, noKey, noKeyObj]
  · simp [noKey, noKeyObj]

/-- C1: every response of every route — health, list (success or database
error), create (validation errors, malformed body, rate-limit rejection,
database error or 201) — contains no `email` key anywhere in its JSON
body, whatever was supplied and stored. -/
theorem email_absent_in_all_responses (req : Req) (st : ServerSt) (now : Nat)
    (dI cT : String) (dbR dbF : Bool) :
    noKey "email" (handleReq req st now dI cT dbR dbF).1.2 = true := by
  cases req with
  | health => simp [handleReq, noKey, noKeyObj]
  | list ql qo =>
      simp only [handleReq]
      split
      · simp [dbErrJson, noKey, noKeyObj]
      · exact noKey_listHandler st.rows ql qo
  | create b =>
      cases b with
      | none => simp [handleReq, noKey, noKeyObj]
      | some body =>
          simp only [handleReq]
          split
          · exact noKey_postHandler body.name body.email body.message
              st.rows st.nextId dI cT dbF
          · simp [tooManyBody, noKey]

/-- C2 (counterexample): the claim says `message` values in responses
never contain a literal `&`; but the 201 create response for the message
`a<bcd` carries the message `a&lt;bcd`, which contains a literal `&`
introduced by the escaping itself. -/
theorem message_contains_literal_amp_counterexample :
    itemField (postHandler none none (some "a<bcd") [] 1 "d" "t" false).1.2
        "message" = some (JVal.s "a&lt;bcd") ∧
    '&' ∈ ("a&lt;bcd" : String).data := ⟨rfl, by decide⟩

/-- C2 (amended): `sanitize` realizes, character by character and exactly
once, the escape map of the five chained replacements applied in source
order with `&` first (`escapeChar`); the five special characters map to
their entities; the `message` of every list item and of every 201 create
response is `sanitize` of the stored (respectively trimmed submitted)
message, applied exactly once; consequently response messages never
contain a literal `<`, `>`, `"` or apostrophe — they can, however,
contain the literal `&` that starts each introduced entity. -/
theorem sanitize_once_and_no_markup :
    (∀ bn be bm rows nid dI cT dbF,
       (postHandler bn be bm rows nid dI cT dbF).1.1 = 201 →
       itemField (postHandler bn be bm rows nid dI cT dbF).1.2 "message"
         = some (.s (sanitize (procMsg bm)))) ∧
    (∀ r : Row, getField (rowView r) "message" = some (.s (sanitize r.message))) ∧
    (∀ s : String, (sanitize s).data = (s.data.map escapeChar).flatten) ∧
    sanitize "&" = "&amp;" ∧ sanitize "<" = "&lt;" ∧ sanitize ">" = "&gt;" ∧
    sanitize "\"" = "&quot;" ∧ sanitize (String.mk ['\'']) = "&#39;" ∧
    (∀ s : String, '<' ∉ (sanitize s).data ∧ '>' ∉ (sanitize s).data ∧
       '"' ∉ (sanitize s).data ∧ '\'' ∉ (sanitize s).data) := by
  refine ⟨?_, ?_, fun s => sanitizeL_eq_escape s.data,
    by decide, by decide, by decide, by decide, by decide,
    fun s => ⟨sanitize_no_lt s, sanitize_no_gt s, sanitize_no_quot s,
      sanitize_no_apos s⟩⟩
  · intro bn be bm rows nid dI cT dbF h
    by_cases h1 : procMsg bm = "" ∨ (procMsg bm).length < 5
    · simp [postHandler, h1] at h
    by_cases h2 : (procMsg bm).length > 2000
    · simp [postHandler, h1, h2] at h
    by_cases h3 : procEmail be ≠ "" ∧ emailTest (procEmail be) = false
    · simp [postHandler, h1, h2, h3] at h
    by_cases h4 : dbF = true
    · simp [postHandler, h1, h2, h3, h4] at h
    · simp [postHandler, h1, h2, h3, h4, itemField, getField, List.lookup]
  · intro r
    simp [rowView, getField, List.lookup]

/-- C2 (witness): a concrete accepted create request whose response
message is the once-sanitized trimmed input. -/
theorem sanitize_once_and_no_markup_witness :
    itemField (postHandler none none (some "hi<there") [] 1 "d" "t" false).1.2
        "message" = some (.s (sanitize (procMsg (some "hi<there")))) :=
  sanitize_once_and_no_markup.1 none none (some "hi<there") [] 1 "d" "t" false
    (by decide)

/-- C3: after trimming, a `message` shorter than 5 characters (including
empty or absent) is rejected 400 `VALIDATION_MIN_LENGTH` on field
`message` with the table untouched; longer than 2000 is rejected 400
`VALIDATION_MAX_LENGTH`; any length from 5 to 2000 inclusive is accepted
with status 201 (given the e-mail field, empty or valid, does not itself
reject). -/
theorem message_length_validation (bn be bm : Option String) (rows : List Row)
    (nid : Int) (dI cT : String) :
    ((procMsg bm).length < 5 →
       postHandler bn be bm rows nid dI cT false
         = ((400, errJson "VALIDATION_MIN_LENGTH" "message"), rows, nid)) ∧
    ((procMsg bm).length > 2000 →
       postHandler bn be bm rows nid dI cT false
         = ((400, errJson "VALIDATION_MAX_LENGTH" "message"), rows, nid)) ∧
    (5 ≤ (procMsg bm).length → (procMsg bm).length ≤ 2000 →
       (procEmail be = "" ∨ emailTest (procEmail be) = true) →
       (postHandler bn be bm rows nid dI cT false).1.1 = 201) := by
  refine ⟨?_, ?_, ?_⟩
  · intro h
    have hc : procMsg bm = "" ∨ (procMsg bm).length < 5 := Or.inr h
    simp [postHandler, hc]
  · intro h
    have hne : procMsg bm ≠ "" := by
      intro h0
      rw [h0] at h
      exact absurd h (by decide)
    have hc1 : ¬(procMsg bm = "" ∨ (procMsg bm).length < 5) := by
      rintro (h0 | h0)
      · exact hne h0
      · omega
    simp [postHandler, hc1, h]
  · intro h5 h2000 hem
    have hne : procMsg bm ≠ "" := by
      intro h0
      rw [h0] at h5
      exact absurd h5 (by decide)
    have hc1 : ¬(procMsg bm = "" ∨ (procMsg bm).length < 5) := by
      rintro (h0 | h0)
      · exact hne h0
      · omega
    have hc2 : ¬((procMsg bm).length > 2000) := by omega
    have hc3 : ¬(procEmail be ≠ "" ∧ emailTest (procEmail be) = false) := by
      rcases hem with h | h
      · rintro ⟨hx, _⟩
        exact hx h
      · rintro ⟨_, hx⟩
        rw [h] at hx
        cases hx
    simp [postHandler, hc1, hc2, hc3]

theorem trimJS_replicate_a (n : Nat) :
    trimJS ⟨List.replicate n 'a'⟩ = ⟨List.replicate n 'a'⟩ := by
  have h : ∀ m : Nat, List.dropWhile Char.isWhitespace (List.replicate m 'a')
      = List.replicate m 'a' := by
    intro m
    cases m with
    | zero => rfl
    | succ k => rw [List.replicate_succ, List.dropWhile_cons, if_neg (by decide)]
  simp [trimJS, h, List.reverse_replicate]

theorem procMsg_replicate_a (n : Nat) :
    (procMsg (some ⟨List.replicate n 'a'⟩)).length = n := by
  show (trimJS ⟨List.replicate n 'a'⟩).length = n
  rw [trimJS_replicate_a]
  simp [String.length]

/-- C3 (witness): length 4 rejected `VALIDATION_MIN_LENGTH`, lengths 5 and
2000 accepted with 201, length 2001 rejected `VALIDATION_MAX_LENGTH`. -/
theorem message_length_validation_witness :
    postHandler none none (some "abcd") [] 1 "d" "t" false
        = ((400, errJson "VALIDATION_MIN_LENGTH" "message"), [], 1) ∧
    (postHandler none none (some "abcde") [] 1 "d" "t" false).1.1 = 201 ∧
    (postHandler none none (some ⟨List.replicate 2000 'a'⟩) [] 1 "d" "t"
        false).1.1 = 201 ∧
    postHandler none none (some ⟨List.replicate 2001 'a'⟩) [] 1 "d" "t" false
        = ((400, errJson "VALIDATION_MAX_LENGTH" "message"), [], 1) := by
  refine ⟨(message_length_validation none none (some "abcd") [] 1 "d" "t").1
      (by decide),
    (message_length_validation none none (some "abcde") [] 1 "d" "t").2.2
      (by decide) (by decide) (Or.inl rfl),
    (message_length_validation none none (some ⟨List.replicate 2000 'a'⟩)
        [] 1 "d" "t").2.2
      (by rw [procMsg_replicate_a]; norm_num) (by rw [procMsg_replicate_a])
      (Or.inl rfl),
    (message_length_validation none none (some ⟨List.replicate 2001 'a'⟩)
        [] 1 "d" "t").2.1
      (by rw [procMsg_replicate_a]; norm_num)⟩

/-- C4: the three validation checks run in source order — message minimum
length, message maximum length, e-mail pattern — and the first failure
short-circuits the rest (the message errors fire for every e-mail value,
valid or not); a non-empty trimmed-and-truncated e-mail failing the
`\S+@\S+\.\S+` pattern is rejected 400 `VALIDATION_EMAIL` on field
`email`; an empty (or absent) e-mail is accepted with no pattern check. -/
theorem validation_order_and_email (bn be bm : Option String) (rows : List Row)
    (nid : Int) (dI cT : String) :
    ((procMsg bm).length < 5 →
       postHandler bn be bm rows nid dI cT false
         = ((400, errJson "VALIDATION_MIN_LENGTH" "message"), rows, nid)) ∧
    (5 ≤ (procMsg bm).length → (procMsg bm).length > 2000 →
       postHandler bn be bm rows nid dI cT false
         = ((400, errJson "VALIDATION_MAX_LENGTH" "message"), rows, nid)) ∧
    (5 ≤ (procMsg bm).length → (procMsg bm).length ≤ 2000 →
       procEmail be ≠ "" → emailTest (procEmail be) = false →
       postHandler bn be bm rows nid dI cT false
         = ((400, errJson "VALIDATION_EMAIL" "email"), rows, nid)) ∧
    (5 ≤ (procMsg bm).length → (procMsg bm).length ≤ 2000 →
       procEmail be = "" →
       (postHandler bn be bm rows nid dI cT false).1.1 = 201) ∧
    emailTest "not-an-email" = false ∧
    emailTest "user@example.com" = true ∧
    postHandler none (some "not-an-email") (some "hello") [] 1 "d" "t" false
      = ((400, errJson "VALIDATION_EMAIL" "email"), [], 1) := by
  have hne : 5 ≤ (procMsg bm).length → procMsg bm ≠ "" := by
    intro h5 h0
    rw [h0] at h5
    exact absurd h5 (by decide)
  have hc1 : 5 ≤ (procMsg bm).length →
      ¬(procMsg bm = "" ∨ (procMsg bm).length < 5) := by
    intro h5
    rintro (h0 | h0)
    · exact hne h5 h0
    · omega
  refine ⟨?_, ?_, ?_, ?_, by decide, by decide, by rfl⟩
  · intro h
    have hc : procMsg bm = "" ∨ (procMsg bm).length < 5 := Or.inr h
    simp [postHandler, hc]
  · intro h5 h
    simp [postHandler, hc1 h5, h]
  · intro h5 h2000 hemne hemf
    have hc2 : ¬((procMsg bm).length > 2000) := by omega
    have hc3 : procEmail be ≠ "" ∧ emailTest (procEmail be) = false :=
      ⟨hemne, hemf⟩
    simp [postHandler, hc1 h5, hc2, hc3]
  · intro h5 h2000 hem
    have hc2 : ¬((procMsg bm).length > 2000) := by omega
    have hc3 : ¬(procEmail be ≠ "" ∧ emailTest (procEmail be) = false) := by
      rintro ⟨hx, _⟩
      exact hx hem
    simp [postHandler, hc1 h5, hc2, hc3]

/-- C4 (witness): a valid-length message with an invalid e-mail is
rejected on the e-mail field with the table unchanged. -/
theorem validation_order_and_email_witness :
    postHandler none (some "bad") (some "abcdef") [] 2 "d" "t" false
      = ((400, errJson "VALIDATION_EMAIL" "email"), [], 2) :=
  (validation_order_and_email none (some "bad") (some "abcdef") [] 2 "d" "t").2.2.1
    (by decide) (by decide) (by decide) (by decide)

theorem postHandler_400 (bn be bm : Option String) (rows : List Row)
    (nid : Int) (dI cT : String) (dbF : Bool)
    (h : (postHandler bn be bm rows nid dI cT dbF).1.1 = 400) :
    (postHandler bn be bm rows nid dI cT dbF).2 = (rows, nid) := by
  by_cases h1 : procMsg bm = "" ∨ (procMsg bm).length < 5
  · simp [postHandler, h1]
  by_cases h2 : (procMsg bm).length > 2000
  · simp [postHandler, h1, h2]
  by_cases h3 : procEmail be ≠ "" ∧ emailTest (procEmail be) = false
  · simp [postHandler, h1, h2, h3]
  by_cases h4 : dbF = true
  · simp [postHandler, h1, h2, h3, h4] at h
  · simp [postHandler, h1, h2, h3, h4] at h

/-- C7: any request answered 400 — a create failing validation
(`VALIDATION_MIN_LENGTH`, `VALIDATION_MAX_LENGTH`, `VALIDATION_EMAIL`)
or a create whose JSON body fails to parse — leaves the stored comment
table and the next row id unchanged: the 400 response is produced before
any write. -/
theorem create_failure_leaves_table_unchanged (req : Req) (st : ServerSt)
    (now : Nat) (dI cT : String) (dbR dbF : Bool)
    (h : (handleReq req st now dI cT dbR dbF).1.1 = 400) :
    (handleReq req st now dI cT dbR dbF).2.rows = st.rows ∧
    (handleReq req st now dI cT dbR dbF).2.nextId = st.nextId := by
  cases req with
  | health => simp [handleReq] at h
  | list ql qo =>
      simp only [handleReq] at h ⊢
      split at h
      · simp at h
      · simp [listHandler] at h
  | create b =>
      cases b with
      | none => exact ⟨rfl, rfl⟩
      | some body =>
          simp only [handleReq] at h ⊢
          split at h
          · next hall =>
              rw [if_pos hall]
              have := postHandler_400 body.name body.email body.message
                st.rows st.nextId dI cT dbF ?_
              · constructor
                · show (postHandler body.name body.email body.message st.rows
                      st.nextId dI cT dbF).2.1 = st.rows
                  rw [this]
                · show (postHandler body.name body.email body.message st.rows
                      st.nextId dI cT dbF).2.2 = st.nextId
                  rw [this]
              · exact h
          · next hall =>
              rw [if_neg hall]
              exact ⟨rfl, rfl⟩

/-- C7 (witness): a create with a 1-character message is answered 400 and
the table and next id are untouched. -/
theorem create_failure_leaves_table_unchanged_witness :
    (handleReq (.create (some ⟨none, none, some "x"⟩)) ⟨[], 5, 0, 0⟩ 1
        "d" "t" true false).2.rows = [] ∧
    (handleReq (.create (some ⟨none, none, some "x"⟩)) ⟨[], 5, 0, 0⟩ 1
        "d" "t" true false).2.nextId = 5 :=
  create_failure_leaves_table_unchanged (.create (some ⟨none, none, some "x"⟩))
    ⟨[], 5, 0, 0⟩ 1 "d" "t" true false (by decide)

/-- C8: `name` is trimmed then truncated to 100 characters and `email`
trimmed then truncated to 150 (the resulting lengths are bounded, and an
over-length name never changes the response status — truncation, not
rejection); every returned view substitutes the placeholder `Anónimo` for
an absent or empty name, in both the 201 create response and the list
items. -/
theorem name_email_truncation_and_placeholder (bn be bm : Option String)
    (rows : List Row) (nid : Int) (dI cT : String) (dbF : Bool) :
    (procName bn).length ≤ 100 ∧
    (procEmail be).length ≤ 150 ∧
    procName bn = jsSlice (trimJS (bn.getD "")) 100 ∧
    procEmail be = jsSlice (trimJS (be.getD "")) 150 ∧
    (postHandler bn be bm rows nid dI cT dbF).1.1
        = (postHandler none be bm rows nid dI cT dbF).1.1 ∧
    ((postHandler bn be bm rows nid dI cT dbF).1.1 = 201 →
       itemField (postHandler bn be bm rows nid dI cT dbF).1.2 "name"
           = some (.s (jsOr (procName bn) "Anónimo")) ∧
       (postHandler bn be bm rows nid dI cT dbF).2.1
           = rows ++ [⟨nid, procName bn, procEmail be, procMsg bm, dI, cT⟩]) ∧
    (∀ r : Row, getField (rowView r) "name" = some (.s (jsOr r.name "Anónimo"))) ∧
    (∀ r : Row, r.name = "" →
       getField (rowView r) "name" = some (.s "Anónimo")) := by
  refine ⟨?_, ?_, rfl, rfl, ?_, ?_, ?_, ?_⟩
  · show ((trimJS (bn.getD "")).data.take 100).length ≤ 100
    simp [List.length_take]
  · show ((trimJS (be.getD "")).data.take 150).length ≤ 150
    simp [List.length_take]
  · by_cases h1 : procMsg bm = "" ∨ (procMsg bm).length < 5
    · simp [postHandler, h1]
    by_cases h2 : (procMsg bm).length > 2000
    · simp [postHandler, h1, h2]
    by_cases h3 : procEmail be ≠ "" ∧ emailTest (procEmail be) = false
    · simp [postHandler, h1, h2, h3]
    by_cases h4 : dbF = true
    · simp [postHandler, h1, h2, h3, h4]
    · simp [postHandler, h1, h2, h3, h4]
  · intro h
    by_cases h1 : procMsg bm = "" ∨ (procMsg bm).length < 5
    · simp [postHandler, h1] at h
    by_cases h2 : (procMsg bm).length > 2000
    · simp [postHandler, h1, h2] at h
    by_cases h3 : procEmail be ≠ "" ∧ emailTest (procEmail be) = false
    · simp [postHandler, h1, h2, h3] at h
    by_cases h4 : dbF = true
    · simp [postHandler, h1, h2, h3, h4] at h
    · simp [postHandler, h1, h2, h3, h4, itemField, getField, List.lookup]
  · intro r
    simp [rowView, getField, List.lookup]
  · intro r h
    simp [rowView, getField, List.lookup, jsOr, h]

/-- C8 (witness): a padded name is trimmed and echoed through the
placeholder logic in a concrete accepted create. -/
theorem name_email_truncation_and_placeholder_witness :
    itemField (postHandler (some "  Bob  ") none (some "abcde") [] 1 "d" "t"
        false).1.2 "name"
      = some (.s (jsOr (procName (some "  Bob  ")) "Anónimo")) :=
  ((name_email_truncation_and_placeholder (some "  Bob  ") none (some "abcde")
      [] 1 "d" "t" false).2.2.2.2.2.1 (by decide)).1

theorem postHandler_status_ne_429 (bn be bm : Option String) (rows : List Row)
    (nid : Int) (dI cT : String) (dbF : Bool) :
    (postHandler bn be bm rows nid dI cT dbF).1.1 ≠ 429 := by
  by_cases h1 : procMsg bm = "" ∨ (procMsg bm).length < 5
  · simp [postHandler, h1]
  by_cases h2 : (procMsg bm).length > 2000
  · simp [postHandler, h1, h2]
  by_cases h3 : procEmail be ≠ "" ∧ emailTest (procEmail be) = false
  · simp [postHandler, h1, h2, h3]
  by_cases h4 : dbF = true
  · simp [postHandler, h1, h2, h3, h4]
  · simp [postHandler, h1, h2, h3, h4]

/-- C9: the fixed-window limiter of the create route rejects with 429
exactly when 30 hits have already been counted inside the current
60-second window (leaving the table untouched); an in-window hit below
the cap and any hit after the window has elapsed (which restarts the
window) are never answered 429; the list and health routes never touch
the limiter state and never answer 429; concretely, of 31 identical
creates inside one window the first 30 get 201 and the 31st gets 429,
and a later create after the window reset gets 201 again. -/
theorem create_rate_limiter_fixed_window :
    (∀ (st : ServerSt) (now : Nat) (b : BodyFields) (dI cT : String)
        (dbR dbF : Bool),
       now < st.winStart + 60000 → 30 ≤ st.winCount →
       (handleReq (.create (some b)) st now dI cT dbR dbF).1.1 = 429 ∧
       (handleReq (.create (some b)) st now dI cT dbR dbF).2.rows = st.rows) ∧
    (∀ (st : ServerSt) (now : Nat) (b : BodyFields) (dI cT : String)
        (dbR dbF : Bool),
       now < st.winStart + 60000 → st.winCount < 30 →
       (handleReq (.create (some b)) st now dI cT dbR dbF).1.1 ≠ 429 ∧
       (handleReq (.create (some b)) st now dI cT dbR dbF).2.winCount
           = st.winCount + 1) ∧
    (∀ (st : ServerSt) (now : Nat) (b : BodyFields) (dI cT : String)
        (dbR dbF : Bool),
       st.winStart + 60000 ≤ now →
       (handleReq (.create (some b)) st now dI cT dbR dbF).1.1 ≠ 429 ∧
       (handleReq (.create (some b)) st now dI cT dbR dbF).2.winStart = now ∧
       (handleReq (.create (some b)) st now dI cT dbR dbF).2.winCount = 1) ∧
    (∀ (st : ServerSt) (now : Nat) (ql qo : Option String) (dI cT : String)
        (dbR dbF : Bool),
       (handleReq (.list ql qo) st now dI cT dbR dbF).2 = st ∧
       (handleReq (.list ql qo) st now dI cT dbR dbF).1.1 ≠ 429) ∧
    (∀ (st : ServerSt) (now : Nat) (dI cT : String) (dbR dbF : Bool),
       (handleReq .health st now dI cT dbR dbF).2 = st ∧
       (handleReq .health st now dI cT dbR dbF).1.1 = 200) ∧
    ((runReqs (List.replicate 31 (Req.create (some ⟨none, none, some "hello"⟩), 5)
          ++ [(Req.create (some ⟨none, none, some "hello"⟩), 70000)])
        ⟨[], 1, 0, 0⟩ "d" "t" true false).1.map Prod.fst
      = List.replicate 30 201 ++ [429, 201]) := by
  refine ⟨?_, ?_, ?_, ?_, ?_, by decide⟩
  · intro st now b dI cT dbR dbF hw hc
    have hn : ¬(st.winStart + 60000 ≤ now) := by omega
    have hc2 : ¬(st.winCount < 30) := by omega
    constructor
    · simp [handleReq, rateAllow, hn, hc2]
    · simp [handleReq, rateAllow, hn, hc2]
  · intro st now b dI cT dbR dbF hw hc
    have hn : ¬(st.winStart + 60000 ≤ now) := by omega
    constructor
    · have := postHandler_status_ne_429 b.name b.email b.message st.rows
        st.nextId dI cT dbF
      simpa [handleReq, rateAllow, hn, hc] using this
    · simp [handleReq, rateAllow, hn, hc]
  · intro st now b dI cT dbR dbF hw
    refine ⟨?_, ?_, ?_⟩
    · have := postHandler_status_ne_429 b.name b.email b.message st.rows
        st.nextId dI cT dbF
      simpa [handleReq, rateAllow, hw] using this
    · simp [handleReq, rateAllow, hw]
    · simp [handleReq, rateAllow, hw]
  · intro st now ql qo dI cT dbR dbF
    cases dbF <;> constructor <;> simp [handleReq, listHandler]
  · intro st now dI cT dbR dbF
    exact ⟨rfl, rfl⟩

/-- C9 (witness): with 30 hits already counted in the current window, a
further in-window create is answered 429 and stores nothing. -/
theorem create_rate_limiter_fixed_window_witness :
    (handleReq (.create (some ⟨none, none, some "hello"⟩)) ⟨[], 1, 0, 30⟩ 5
        "d" "t" true false).1.1 = 429 ∧
    (handleReq (.create (some ⟨none, none, some "hello"⟩)) ⟨[], 1, 0, 30⟩ 5
        "d" "t" true false).2.rows = [] :=
  create_rate_limiter_fixed_window.1 ⟨[], 1, 0, 30⟩ 5 ⟨none, none, some "hello"⟩
    "d" "t" true false (by decide) (by decide)

/-- C10: sanitization is applied to the `message` field only, never to
`name`: every list item carries the stored name verbatim (modulo only the
empty-name placeholder), every 201 create response carries the trimmed
and truncated — but unsanitized — submitted name, and a stored name
containing HTML-significant characters comes back unchanged. -/
theorem name_returned_verbatim_unsanitized (r : Row) (bn be bm : Option String)
    (rows : List Row) (nid : Int) (dI cT : String) :
    (r.name ≠ "" → getField (rowView r) "name" = some (.s r.name)) ∧
    getField (rowView r) "message" = some (.s (sanitize r.message)) ∧
    ((postHandler bn be bm rows nid dI cT false).1.1 = 201 →
       itemField (postHandler bn be bm rows nid dI cT false).1.2 "name"
           = some (.s (jsOr (procName bn) "Anónimo"))) ∧
    getField (rowView ⟨1, "a<b>&e", "", "m", "d", "t"⟩) "name"
        = some (.s "a<b>&e") := by
  refine ⟨?_, ?_, ?_, by rfl⟩
  · intro h
    simp [rowView, getField, List.lookup, jsOr, h]
  · simp [rowView, getField, List.lookup]
  · intro h
    by_cases h1 : procMsg bm = "" ∨ (procMsg bm).length < 5
    · simp [postHandler, h1] at h
    by_cases h2 : (procMsg bm).length > 2000
    · simp [postHandler, h1, h2] at h
    by_cases h3 : procEmail be ≠ "" ∧ emailTest (procEmail be) = false
    · simp [postHandler, h1, h2, h3] at h
    · simp [postHandler, h1, h2, h3, itemField, getField, List.lookup]

/-- C10 (witness): a row whose name contains `<` and `>` is listed with
that name verbatim. -/
theorem name_returned_verbatim_unsanitized_witness :
    getField (rowView ⟨2, "x<y>", "", "m", "d", "t"⟩) "name"
        = some (.s "x<y>") :=
  (name_returned_verbatim_unsanitized ⟨2, "x<y>", "", "m", "d", "t"⟩
    none none none [] 1 "d" "t").1 (by decide)

end Apleno
